import Mathlib

/-!
Shallow embedding of the `controldehoras` Flask application (`app.py`).

Times are modelled as minutes since midnight, dates as year/month/day
triples, the database as a list of `Service` rows, and Python exceptions
as explicit `Outcome` values.  Python `float` arithmetic is modelled over
`ℚ`: every value reachable in the worked-hours computation is a multiple
of `1/100` obtained by rounding a multiple of `1/60`, where the float and
exact computations agree.
-/

/-- Numeric value of a decimal digit character. -/
def digitVal (c : Char) : Nat := c.toNat - 48

/-- Greedily read one or two decimal digits from the front of a character
list, as the regex fragments used by `_strptime` (`2[0-3]|[0-1]\d|\d` for
`%H`, `[0-5]\d|\d` for `%M`, ...) do; the numeric range checks are applied
by the callers.  Greedy matching plus a range check is equivalent to the
backtracking alternation because each two-digit field is followed by a
non-digit (`:`/`-`) or the end of the string. -/
def takeDigits2 : List Char → Option (Nat × List Char)
  | [] => none
  | c1 :: rest =>
    if c1.isDigit then
      match rest with
      | c2 :: rest2 =>
        if c2.isDigit then some (10 * digitVal c1 + digitVal c2, rest2)
        else some (digitVal c1, rest)
      | [] => some (digitVal c1, [])
    else none

/-- Read exactly four decimal digits (the `\d\d\d\d` regex of `%Y`). -/
def takeDigits4 : List Char → Option (Nat × List Char)
  | c1 :: c2 :: c3 :: c4 :: rest =>
    if c1.isDigit && c2.isDigit && c3.isDigit && c4.isDigit then
      some (1000 * digitVal c1 + 100 * digitVal c2 + 10 * digitVal c3 + digitVal c4, rest)
    else none
  | _ => none

/-- Model of `datetime.strptime(s, '%H:%M')` (`app.py` lines 123-124),
returning minutes since midnight; `none` models the `ValueError` raised on
a malformed string (including unconverted trailing data). -/
def parse_time (s : String) : Option Nat :=
  match takeDigits2 s.data with
  | some (h, ':' :: rest) =>
    match takeDigits2 rest with
    | some (m, []) => if h ≤ 23 && m ≤ 59 then some (60 * h + m) else none
    | _ => none
  | _ => none

/-- Python `round` to an integer: round-half-to-even (banker's rounding). -/
def pyRound (q : ℚ) : ℤ :=
  if q - ⌊q⌋ < 1 / 2 then ⌊q⌋
  else if q - ⌊q⌋ > 1 / 2 then ⌊q⌋ + 1
  else if ⌊q⌋ % 2 = 0 then ⌊q⌋ else ⌊q⌋ + 1

/-- Python `round(x, 2)`: round to the nearest multiple of `1/100`. -/
def round2 (q : ℚ) : ℚ := (pyRound (q * 100) : ℚ) / 100

/-- `calculate_worked_hours` (`app.py` lines 120-137): parse the two
`HH:MM` strings; on success return `round((exit - entry - break) / 60, 2)`
where `(exit - entry).total_seconds() / 60` is the signed difference in
minutes of two times of the same day (no day rollover); on a `ValueError`
return `0.0`. -/
def calculate_worked_hours (entry_time_str exit_time_str : String)
    (break_duration_min : ℤ) : ℚ :=
  match parse_time entry_time_str, parse_time exit_time_str with
  | some entry, some exit_t =>
    round2 (((((exit_t : ℤ) - (entry : ℤ)) - break_duration_min : ℤ) : ℚ) / 60)
  | _, _ => 0

/-- `time.strftime('%H:%M')` for a time given as minutes since midnight:
two zero-padded digits for the hour and for the minute. -/
def fmtTime (m : Nat) : String :=
  String.mk [Char.ofNat (48 + m / 60 / 10), Char.ofNat (48 + m / 60 % 10),
    ':', Char.ofNat (48 + m % 60 / 10), Char.ofNat (48 + m % 60 % 10)]

theorem char_ofNat_digit (d : Nat) (hd : d < 10) :
    (Char.ofNat (48 + d)).isDigit = true ∧ digitVal (Char.ofNat (48 + d)) = d := by
  interval_cases d <;> exact ⟨by decide, by decide⟩

theorem parse_time_fmtTime (m : Nat) (hm : m < 1440) : parse_time (fmtTime m) = some m := by
  obtain ⟨h1d, h1v⟩ := char_ofNat_digit (m / 60 / 10) (by omega)
  obtain ⟨h2d, h2v⟩ := char_ofNat_digit (m / 60 % 10) (by omega)
  obtain ⟨h3d, h3v⟩ := char_ofNat_digit (m % 60 / 10) (by omega)
  obtain ⟨h4d, h4v⟩ := char_ofNat_digit (m % 60 % 10) (by omega)
  have e1 : 10 * (m / 60 / 10) + m / 60 % 10 = m / 60 := by omega
  have e2 : 10 * (m % 60 / 10) + m % 60 % 10 = m % 60 := by omega
  have hh : m / 60 ≤ 23 := by omega
  have hmm : m % 60 ≤ 59 := by omega
  simp only [parse_time, fmtTime, takeDigits2, h1d, h2d, h3d, h4d, h1v, h2v, h3v, h4v,
    if_true, e1, e2]
  simp [hh, hmm]
  omega

/-- Leap-year rule of the proleptic Gregorian calendar used by
`datetime.date`. -/
def isLeapYear (y : Nat) : Bool := y % 4 == 0 && (y % 100 != 0 || y % 400 == 0)

/-- Number of days of month `m` of year `y`, as `datetime.date` validates. -/
def daysInMonth (y m : Nat) : Nat :=
  if m = 2 then (if isLeapYear y then 29 else 28)
  else if m = 4 ∨ m = 6 ∨ m = 9 ∨ m = 11 then 30 else 31

/-- A `datetime.date` value: a year/month/day triple, compared
lexicographically (as `datetime.date` ordering does). -/
structure PyDate where
  year : Nat
  month : Nat
  day : Nat
deriving DecidableEq

/-- `datetime.date` ordering (lexicographic on year, month, day). -/
def dateLe (a b : PyDate) : Bool :=
  decide (a.year < b.year ∨ (a.year = b.year ∧ (a.month < b.month ∨
    (a.month = b.month ∧ a.day ≤ b.day))))

/-- `d - timedelta(days=1)` for a `datetime.date`. -/
def predDay (d : PyDate) : PyDate :=
  if 1 < d.day then ⟨d.year, d.month, d.day - 1⟩
  else if d.month = 1 then ⟨d.year - 1, 12, 31⟩
  else ⟨d.year, d.month - 1, daysInMonth d.year (d.month - 1)⟩

/-- Model of `datetime.strptime(s, "%Y-%m")` (`app.py` line 314 etc.),
returning the `(year, month)` pair; `%Y` is four digits, `%m` is one or two
digits in `1..12`, and `datetime` requires `year ≥ 1`. -/
def parse_month (s : String) : Option (Nat × Nat) :=
  match takeDigits4 s.data with
  | some (y, '-' :: rest) =>
    match takeDigits2 rest with
    | some (m, []) => if 1 ≤ y && 1 ≤ m && m ≤ 12 then some (y, m) else none
    | _ => none
  | _ => none

/-- Model of `datetime.strptime(s, '%Y-%m-%d').date()` (`app.py` line 381):
the day must also be valid for the month (`datetime` raises `ValueError`
on e.g. `2023-02-30`). -/
def parse_date (s : String) : Option PyDate :=
  match takeDigits4 s.data with
  | some (y, '-' :: rest) =>
    match takeDigits2 rest with
    | some (m, '-' :: rest2) =>
      match takeDigits2 rest2 with
      | some (d, []) =>
        if 1 ≤ y && 1 ≤ m && m ≤ 12 && 1 ≤ d && d ≤ daysInMonth y m then
          some ⟨y, m, d⟩
        else none
      | _ => none
    | _ => none
  | _ => none

/-- Value of a list of decimal digit characters. -/
def natOfDigits (l : List Char) : Nat := l.foldl (fun acc c => 10 * acc + digitVal c) 0

/-- Python `str.strip()`: drop leading and trailing whitespace. -/
def pyStrip (s : String) : String :=
  String.mk (((s.data.dropWhile Char.isWhitespace).reverse.dropWhile
    Char.isWhitespace).reverse)

/-- Model of Python `int(s)` (`app.py` lines 387, 432): surrounding
whitespace is ignored, an optional sign precedes a nonempty digit string;
anything else raises `ValueError` (modelled as `none`). -/
def parse_int (s : String) : Option ℤ :=
  match (pyStrip s).data with
  | [] => none
  | '-' :: ds =>
    if !ds.isEmpty && ds.all Char.isDigit then some (-(natOfDigits ds : ℤ)) else none
  | '+' :: ds =>
    if !ds.isEmpty && ds.all Char.isDigit then some ((natOfDigits ds : ℤ)) else none
  | ds =>
    if ds.all Char.isDigit then some ((natOfDigits ds : ℤ)) else none

/-- A row of the `services` table (`app.py` lines 65-81): times are minutes
since midnight, `worked_hours` is the stored `Float` (modelled in `ℚ`). -/
structure Service where
  id : Nat
  user_id : Nat
  place : String
  date : PyDate
  entry_time : Nat
  break_duration : ℤ
  exit_time : Nat
  worked_hours : ℚ
  observations : String
deriving DecidableEq

/-- The committed database state: stored rows plus the next primary key. -/
structure DB where
  rows : List Service
  next_id : Nat
deriving DecidableEq

/-- The fields of the add/edit service HTML form (`request.form`). -/
structure ServiceForm where
  place : String
  date_str : String
  entry_time_str : String
  break_duration_str : String
  exit_time_str : String
  observations : String
  no_discount_break : Bool
deriving DecidableEq

/-- Observable outcome of a request: success, a caught `ValueError`
(flash + re-render), a database error (flash + rollback), or a 404. -/
inductive Outcome where
  | ok
  | formatError
  | dbError
  | notFound
deriving DecidableEq

/-- `add_service` POST handler (`app.py` lines 369-412): parse date, entry
and exit time; the break is `0` when the `no_discount_break` checkbox is
present, else `int(break_duration_str)`; compute `worked_hours` from the
form strings; insert the row and commit.  `db_ok` models whether the
commit succeeds; on any failure the committed state is unchanged
(`ValueError` is caught before `session.add`, other errors roll back). -/
def add_service (db : DB) (db_ok : Bool) (user_id : Nat) (f : ServiceForm) :
    Outcome × DB :=
  match parse_date f.date_str with
  | none => (.formatError, db)
  | some date_obj =>
    match parse_time f.entry_time_str with
    | none => (.formatError, db)
    | some entry_time_obj =>
      match parse_time f.exit_time_str with
      | none => (.formatError, db)
      | some exit_time_obj =>
        match (if f.no_discount_break then some 0 else parse_int f.break_duration_str) with
        | none => (.formatError, db)
        | some break_duration_min =>
          let worked_hours :=
            calculate_worked_hours f.entry_time_str f.exit_time_str break_duration_min
          let new_service : Service :=
            ⟨db.next_id, user_id, f.place, date_obj, entry_time_obj,
              break_duration_min, exit_time_obj, worked_hours, pyStrip f.observations⟩
          if db_ok then (.ok, ⟨db.rows ++ [new_service], db.next_id + 1⟩)
          else (.dbError, db)

/-- `edit_service` POST handler (`app.py` lines 417-455):
`Service.query.filter_by(id=service_id, user_id=session['user_id'])
.first_or_404()` guards ownership; on success the row's fields are
replaced and `worked_hours` is recomputed from the updated entry/exit
(`strftime('%H:%M')`) and break. -/
def edit_service (db : DB) (db_ok : Bool) (user_id service_id : Nat)
    (f : ServiceForm) : Outcome × DB :=
  match db.rows.find? (fun r => r.id == service_id && r.user_id == user_id) with
  | none => (.notFound, db)
  | some service =>
    match parse_date f.date_str with
    | none => (.formatError, db)
    | some date_obj =>
      match parse_time f.entry_time_str with
      | none => (.formatError, db)
      | some entry_time_obj =>
        match parse_time f.exit_time_str with
        | none => (.formatError, db)
        | some exit_time_obj =>
          match (if f.no_discount_break then some 0 else parse_int f.break_duration_str) with
          | none => (.formatError, db)
          | some break_duration_min =>
            let updated : Service :=
              { service with
                place := f.place
                date := date_obj
                entry_time := entry_time_obj
                exit_time := exit_time_obj
                observations := pyStrip f.observations
                break_duration := break_duration_min
                worked_hours := calculate_worked_hours (fmtTime entry_time_obj)
                  (fmtTime exit_time_obj) break_duration_min }
            if db_ok then
              (.ok, ⟨db.rows.map (fun r =>
                if r.id == service_id && r.user_id == user_id then updated else r),
                db.next_id⟩)
            else (.dbError, db)

/-- `delete_service` handler (`app.py` lines 460-470): ownership-guarded
lookup (`first_or_404`), then delete the found row and commit; a failed
commit rolls back. -/
def delete_service (db : DB) (db_ok : Bool) (user_id service_id : Nat) :
    Outcome × DB :=
  match db.rows.find? (fun r => r.id == service_id && r.user_id == user_id) with
  | none => (.notFound, db)
  | some _ =>
    if db_ok then
      (.ok, ⟨db.rows.eraseP (fun r => r.id == service_id && r.user_id == user_id),
        db.next_id⟩)
    else (.dbError, db)

/-- `selected_month_dt.replace(day=1).date()` (`app.py` line 315). -/
def month_start (y m : Nat) : PyDate := ⟨y, m, 1⟩

/-- The `end_date` computed at `app.py` lines 318-322: for December, the
first of January of the next year minus one day; otherwise the first of
the next month minus one day. -/
def month_end (y m : Nat) : PyDate :=
  if m = 12 then predDay ⟨y + 1, 1, 1⟩ else predDay ⟨y, m + 1, 1⟩

/-- SQL `ilike '%q%'`: case-insensitive substring test. -/
def strContainsCI (txt q : String) : Bool :=
  decide (q.toLower.data <:+: txt.toLower.data)

/-- `order_by(Service.date.desc(), Service.entry_time.desc())`
(`app.py` line 339) as a sort relation. -/
def index_order (a b : Service) : Bool :=
  if a.date = b.date then decide (b.entry_time ≤ a.entry_time)
  else dateLe b.date a.date

/-- `order_by(Service.date)` (`app.py` line 517) as a sort relation. -/
def pdf_order (a b : Service) : Bool := dateLe a.date b.date

/-- The services produced by the `index` route (`app.py` lines 304-364):
parse the selected month (`ValueError` yields the empty listing), filter
the rows by user id and by the month's date range, apply the optional
case-insensitive search over observations and place, and order by date
and entry time descending. -/
def index_services (rows : List Service) (user_id : Nat)
    (selected_month_str search_query : String) : List Service :=
  match parse_month selected_month_str with
  | none => []
  | some (y, m) =>
    let base := rows.filter fun s =>
      s.user_id == user_id && dateLe (month_start y m) s.date &&
        dateLe s.date (month_end y m)
    let filtered :=
      if search_query ≠ "" then
        base.filter fun s =>
          strContainsCI s.observations search_query || strContainsCI s.place search_query
      else base
    filtered.mergeSort index_order

/-- The services queried by the `download_pdf` route (`app.py` lines
499-517); the `preview_pdf` route (lines 534-551) runs the identical
query.  A month that fails to parse raises inside the `try`, so no rows
are queried. -/
def download_pdf_services (rows : List Service) (user_id : Nat)
    (selected_month_str : String) : List Service :=
  match parse_month selected_month_str with
  | none => []
  | some (y, m) =>
    (rows.filter fun s =>
      s.user_id == user_id && dateLe (month_start y m) s.date &&
        dateLe s.date (month_end y m)).mergeSort pdf_order

/-- The services queried by the `tasks_summary` route (`app.py` lines
568-597) and by `generate_tasks_pdf` (lines 617-635): same user/month
filter, no ordering. -/
def tasks_summary_services (rows : List Service) (user_id : Nat)
    (selected_month_str : String) : List Service :=
  match parse_month selected_month_str with
  | none => []
  | some (y, m) =>
    rows.filter fun s =>
      s.user_id == user_id && dateLe (month_start y m) s.date &&
        dateLe s.date (month_end y m)

/-- An export endpoint of the application: its route and the mimetype of
the `send_file` response. -/
structure ExportRoute where
  path : String
  mimetype : String
  as_attachment : Bool
deriving DecidableEq

/-- Every route of `app.py` that exports the selected month's data, with
the mimetype it serves: `download_pdf` (lines 497-529), `preview_pdf`
(lines 532-563) and `generate_tasks_pdf` (lines 615-653).  All three call
`send_file(..., mimetype='application/pdf')`; no route of `app.py`
produces CSV. -/
def export_routes : List ExportRoute :=
  [⟨"/download_pdf", "application/pdf", true⟩,
   ⟨"/preview_pdf", "application/pdf", false⟩,
   ⟨"/generate_tasks_pdf", "application/pdf", true⟩]

theorem parse_time_lt {s : String} {m : Nat} (h : parse_time s = some m) : m < 1440 := by
  unfold parse_time at h
  rcases h1 : takeDigits2 s.data with _ | ⟨hh, rest⟩
  · rw [h1] at h; exact absurd h (by simp)
  · rw [h1] at h
    rcases rest with _ | ⟨c, rest2⟩
    · exact absurd h (by simp)
    · by_cases hc : c = ':'
      · subst hc
        simp only at h
        rcases h2 : takeDigits2 rest2 with _ | ⟨mm, rest3⟩
        · rw [h2] at h; exact absurd h (by simp)
        · rw [h2] at h
          rcases rest3 with _ | _
          · simp only at h
            by_cases hb : hh ≤ 23 && mm ≤ 59
            · rw [if_pos hb] at h
              simp only [Option.some.injEq] at h
              simp only [Bool.and_eq_true, decide_eq_true_eq] at hb
              omega
            · rw [if_neg hb] at h; exact absurd h (by simp)
          · exact absurd h (by simp)
      · exact absurd h (by simp [hc])

theorem pyRound_le (q : ℚ) : pyRound q ≤ ⌊q⌋ + 1 := by
  unfold pyRound; split_ifs <;> omega

theorem round2_neg_of_le {x : ℚ} (hx : x ≤ -1 / 60) : round2 x < 0 := by
  have h1 : x * 100 ≤ -5 / 3 := by linarith
  have h2 : ⌊x * 100⌋ ≤ ⌊(-5 / 3 : ℚ)⌋ := Int.floor_le_floor h1
  have h3 : ⌊(-5 / 3 : ℚ)⌋ = -2 := by norm_num
  have h4 : pyRound (x * 100) ≤ -1 := by
    have h5 := pyRound_le (x * 100); omega
  have h6 : ((pyRound (x * 100) : ℤ) : ℚ) ≤ -1 := by exact_mod_cast h4
  unfold round2
  apply div_neg_of_neg_of_pos
  · linarith
  · norm_num

/-- **C1.**  For two times given in `HH:MM` format and an integer break
duration `b`, `calculate_worked_hours` returns the elapsed minutes from
entry to exit minus `b`, divided by 60 and rounded (Python `round`) to two
decimals. -/
theorem c1_worked_hours_formula (eh em xh xm : Nat) (b : ℤ)
    (heh : eh ≤ 23) (hem : em ≤ 59) (hxh : xh ≤ 23) (hxm : xm ≤ 59) :
    calculate_worked_hours (fmtTime (60 * eh + em)) (fmtTime (60 * xh + xm)) b =
      round2 (((60 * (xh : ℤ) + xm) - (60 * (eh : ℤ) + em) - b : ℚ) / 60) := by
  have he : 60 * eh + em < 1440 := by omega
  have hx : 60 * xh + xm < 1440 := by omega
  simp only [calculate_worked_hours, parse_time_fmtTime _ he, parse_time_fmtTime _ hx]
  congr 1
  push_cast
  ring

theorem c1_worked_hours_formula_witness :
    calculate_worked_hours (fmtTime (60 * 9 + 0)) (fmtTime (60 * 17 + 30)) 30 =
      round2 (((60 * (17 : ℤ) + 30) - (60 * (9 : ℤ) + 0) - 30 : ℚ) / 60) :=
  c1_worked_hours_formula 9 0 17 30 30 (by decide) (by decide) (by decide) (by decide)

/-- **C2 counterexample.**  For the overnight pair `23:00` → `01:00` with a
break of `0`, the code returns `-22.0`: it does **not** treat the exit as
falling on the following day, which would give
`round(((60 + 1440) - 1380 - 0) / 60, 2) = 2.0`. -/
theorem c2_counterexample :
    calculate_worked_hours "23:00" "01:00" 0 = -22 ∧
    calculate_worked_hours "23:00" "01:00" 0 ≠
      round2 ((((60 + 1440 : ℤ) - 1380 - 0 : ℤ) : ℚ) / 60) := by
  have h1 : parse_time "23:00" = some 1380 := by decide
  have h2 : parse_time "01:00" = some 60 := by decide
  have hv : calculate_worked_hours "23:00" "01:00" 0 = -22 := by
    simp only [calculate_worked_hours, h1, h2]
    norm_num [round2, pyRound]
  refine ⟨hv, ?_⟩
  rw [hv]
  norm_num [round2, pyRound]

/-- **C2 (amended).**  `calculate_worked_hours` performs no day-rollover:
when the exit time is earlier in the day than the entry time, the elapsed
time used is the *negative* same-day difference `exit − entry`, so with a
nonnegative break the result is negative rather than the wrapped-around
duration. -/
theorem c2_no_day_rollover (entry exit_t : Nat) (b : ℤ) (hlt : exit_t < entry)
    (he : entry < 1440) (hb : 0 ≤ b) :
    calculate_worked_hours (fmtTime entry) (fmtTime exit_t) b =
      round2 ((((exit_t : ℤ) - (entry : ℤ) - b : ℤ) : ℚ) / 60) ∧
    calculate_worked_hours (fmtTime entry) (fmtTime exit_t) b < 0 := by
  have hx : exit_t < 1440 := lt_trans hlt he
  have hform : calculate_worked_hours (fmtTime entry) (fmtTime exit_t) b =
      round2 ((((exit_t : ℤ) - (entry : ℤ) - b : ℤ) : ℚ) / 60) := by
    simp only [calculate_worked_hours, parse_time_fmtTime _ he, parse_time_fmtTime _ hx]
  refine ⟨hform, ?_⟩
  rw [hform]
  apply round2_neg_of_le
  have hd : ((exit_t : ℤ) - (entry : ℤ) - b : ℤ) ≤ -1 := by omega
  have hd2 : (((exit_t : ℤ) - (entry : ℤ) - b : ℤ) : ℚ) ≤ -1 := by exact_mod_cast hd
  linarith

theorem c2_no_day_rollover_witness :
    calculate_worked_hours (fmtTime 1380) (fmtTime 60) 0 =
      round2 ((((60 : ℤ) - (1380 : ℤ) - 0 : ℤ) : ℚ) / 60) ∧
    calculate_worked_hours (fmtTime 1380) (fmtTime 60) 0 < 0 :=
  c2_no_day_rollover 1380 60 0 (by decide) (by decide) (by decide)

/-- **C3.**  If either time string fails to parse as `HH:MM`, the function
returns exactly `0.0` (the caught `ValueError`); if both parse, no
exception escapes and the rounded formula value is returned. -/
theorem c3_invalid_time_yields_zero (entry_s exit_s : String) (b : ℤ) :
    ((parse_time entry_s = none ∨ parse_time exit_s = none) →
      calculate_worked_hours entry_s exit_s b = 0) ∧
    (∀ me mx : Nat, parse_time entry_s = some me → parse_time exit_s = some mx →
      calculate_worked_hours entry_s exit_s b =
        round2 ((((mx : ℤ) - (me : ℤ) - b : ℤ) : ℚ) / 60)) := by
  constructor
  · rintro (h | h)
    · cases hx : parse_time exit_s <;> simp [calculate_worked_hours, h, hx]
    · cases he : parse_time entry_s <;> simp [calculate_worked_hours, h, he]
  · intro me mx h1 h2
    simp only [calculate_worked_hours, h1, h2]

theorem c3_invalid_time_yields_zero_witness :
    calculate_worked_hours "25:00" "17:00" 15 = 0 ∧
    calculate_worked_hours "09:00" "17:00" 15 =
      round2 ((((1020 : ℤ) - (540 : ℤ) - 15 : ℤ) : ℚ) / 60) :=
  ⟨(c3_invalid_time_yields_zero "25:00" "17:00" 15).1 (Or.inl (by decide)),
   (c3_invalid_time_yields_zero "09:00" "17:00" 15).2 540 1020 (by decide) (by decide)⟩

/-- **C10.**  Well-formed inputs can produce negative worked hours (an
exit earlier than the entry, or a break exceeding the elapsed minutes),
and `add_service` accepts and stores the negative value unchanged. -/
theorem c10_negative_hours_stored :
    calculate_worked_hours "23:00" "01:00" 0 = -22 ∧
    calculate_worked_hours "09:00" "10:00" 120 = -1 ∧
    add_service ⟨[], 1⟩ true 7 ⟨"Club", "2024-05-03", "23:00", "0", "01:00", "", false⟩ =
      (.ok, ⟨[⟨1, 7, "Club", ⟨2024, 5, 3⟩, 1380, 0, 60, -22, ""⟩], 2⟩) := by
  have h1 : parse_time "23:00" = some 1380 := by decide
  have h2 : parse_time "01:00" = some 60 := by decide
  have h3 : parse_time "09:00" = some 540 := by decide
  have h4 : parse_time "10:00" = some 600 := by decide
  have hd : parse_date "2024-05-03" = some ⟨2024, 5, 3⟩ := by decide
  have hpi : parse_int "0" = some 0 := by decide
  have e1 : calculate_worked_hours "23:00" "01:00" 0 = -22 := by
    simp only [calculate_worked_hours, h1, h2]
    norm_num [round2, pyRound]
  have e2 : calculate_worked_hours "09:00" "10:00" 120 = -1 := by
    simp only [calculate_worked_hours, h3, h4]
    norm_num [round2, pyRound]
  refine ⟨e1, e2, ?_⟩
  simp only [add_service, hd, h1, h2, hpi, Bool.false_eq_true, if_false, e1]
  decide

theorem calc_eq_of_parse {es xs : String} {e x : Nat} (b : ℤ)
    (he : parse_time es = some e) (hx : parse_time xs = some x) :
    calculate_worked_hours es xs b =
      calculate_worked_hours (fmtTime e) (fmtTime x) b := by
  simp only [calculate_worked_hours, he, hx, parse_time_fmtTime _ (parse_time_lt he),
    parse_time_fmtTime _ (parse_time_lt hx)]

theorem add_service_cases (db : DB) (db_ok : Bool) (uid : Nat) (f : ServiceForm) :
    ((add_service db db_ok uid f).1 ≠ Outcome.ok ∧ (add_service db db_ok uid f).2 = db) ∨
    (db_ok = true ∧ ∃ d e x b, parse_date f.date_str = some d ∧
      parse_time f.entry_time_str = some e ∧ parse_time f.exit_time_str = some x ∧
      (if f.no_discount_break then some 0 else parse_int f.break_duration_str) = some b ∧
      add_service db db_ok uid f =
        (Outcome.ok, ⟨db.rows ++ [⟨db.next_id, uid, f.place, d, e, b, x,
          calculate_worked_hours f.entry_time_str f.exit_time_str b,
          pyStrip f.observations⟩], db.next_id + 1⟩)) := by
  unfold add_service
  cases hd : parse_date f.date_str with
  | none => exact Or.inl ⟨by simp, rfl⟩
  | some d =>
    cases he : parse_time f.entry_time_str with
    | none => exact Or.inl ⟨by simp, rfl⟩
    | some e =>
      cases hx : parse_time f.exit_time_str with
      | none => exact Or.inl ⟨by simp, rfl⟩
      | some x =>
        cases hb : (if f.no_discount_break then some 0 else parse_int f.break_duration_str) with
        | none => exact Or.inl ⟨by simp, rfl⟩
        | some b =>
          cases db_ok with
          | false => exact Or.inl ⟨by simp, rfl⟩
          | true => exact Or.inr ⟨rfl, d, e, x, b, rfl, rfl, rfl, rfl, by simp⟩

theorem edit_service_cases (db : DB) (db_ok : Bool) (uid sid : Nat) (f : ServiceForm) :
    ((edit_service db db_ok uid sid f).1 ≠ Outcome.ok ∧
      (edit_service db db_ok uid sid f).2 = db) ∨
    (db_ok = true ∧ ∃ s d e x b,
      db.rows.find? (fun r => r.id == sid && r.user_id == uid) = some s ∧
      parse_date f.date_str = some d ∧
      parse_time f.entry_time_str = some e ∧ parse_time f.exit_time_str = some x ∧
      (if f.no_discount_break then some 0 else parse_int f.break_duration_str) = some b ∧
      edit_service db db_ok uid sid f =
        (Outcome.ok, ⟨db.rows.map (fun r =>
          if r.id == sid && r.user_id == uid then
            { s with
              place := f.place
              date := d
              entry_time := e
              exit_time := x
              observations := pyStrip f.observations
              break_duration := b
              worked_hours := calculate_worked_hours (fmtTime e) (fmtTime x) b }
          else r), db.next_id⟩)) := by
  unfold edit_service
  cases hs : db.rows.find? (fun r => r.id == sid && r.user_id == uid) with
  | none => exact Or.inl ⟨by simp, rfl⟩
  | some s =>
    cases hd : parse_date f.date_str with
    | none => exact Or.inl ⟨by simp, rfl⟩
    | some d =>
      cases he : parse_time f.entry_time_str with
      | none => exact Or.inl ⟨by simp, rfl⟩
      | some e =>
        cases hx : parse_time f.exit_time_str with
        | none => exact Or.inl ⟨by simp, rfl⟩
        | some x =>
          cases hb : (if f.no_discount_break then some 0 else parse_int f.break_duration_str) with
          | none => exact Or.inl ⟨by simp, rfl⟩
          | some b =>
            cases db_ok with
            | false => exact Or.inl ⟨by simp, rfl⟩
            | true => exact Or.inr ⟨rfl, s, d, e, x, b, rfl, rfl, rfl, rfl, rfl, by simp⟩

theorem delete_service_cases (db : DB) (db_ok : Bool) (uid sid : Nat) :
    ((delete_service db db_ok uid sid).1 ≠ Outcome.ok ∧
      (delete_service db db_ok uid sid).2 = db) ∨
    (db_ok = true ∧ ∃ s,
      db.rows.find? (fun r => r.id == sid && r.user_id == uid) = some s ∧
      delete_service db db_ok uid sid =
        (Outcome.ok, ⟨db.rows.eraseP (fun r => r.id == sid && r.user_id == uid),
          db.next_id⟩)) := by
  unfold delete_service
  cases hs : db.rows.find? (fun r => r.id == sid && r.user_id == uid) with
  | none => exact Or.inl ⟨by simp, rfl⟩
  | some s =>
    cases db_ok with
    | false => exact Or.inl ⟨by simp, rfl⟩
    | true => exact Or.inr ⟨rfl, s, rfl, by simp⟩

/-- **C4.**  When the `no_discount_break` checkbox is present, the stored
`break_duration` is `0` and `worked_hours` is computed with a break of
`0`, whatever break value was submitted; when it is absent, the submitted
integer break is stored and subtracted — in both `add_service` and
`edit_service`. -/
theorem c4_no_discount_break_zero (db : DB) (db_ok : Bool) (uid sid : Nat)
    (f : ServiceForm) :
    ((add_service db db_ok uid f).1 = Outcome.ok →
      ∃ r, (add_service db db_ok uid f).2.rows = db.rows ++ [r] ∧
        (f.no_discount_break = true → r.break_duration = 0 ∧
          r.worked_hours = calculate_worked_hours f.entry_time_str f.exit_time_str 0) ∧
        (∀ b, f.no_discount_break = false → parse_int f.break_duration_str = some b →
          r.break_duration = b ∧
          r.worked_hours = calculate_worked_hours f.entry_time_str f.exit_time_str b)) ∧
    ((edit_service db db_ok uid sid f).1 = Outcome.ok →
      ∀ r ∈ (edit_service db db_ok uid sid f).2.rows, r.id = sid → r.user_id = uid →
        (f.no_discount_break = true → r.break_duration = 0 ∧
          r.worked_hours =
            calculate_worked_hours (fmtTime r.entry_time) (fmtTime r.exit_time) 0) ∧
        (∀ b, f.no_discount_break = false → parse_int f.break_duration_str = some b →
          r.break_duration = b ∧
          r.worked_hours =
            calculate_worked_hours (fmtTime r.entry_time) (fmtTime r.exit_time) b)) := by
  constructor
  · intro hok
    rcases add_service_cases db db_ok uid f with ⟨hne, _⟩ | ⟨_, d, e, x, b, hd, he, hx, hb, heq⟩
    · exact absurd hok hne
    · refine ⟨⟨db.next_id, uid, f.place, d, e, b, x,
        calculate_worked_hours f.entry_time_str f.exit_time_str b, pyStrip f.observations⟩,
        by rw [heq], ?_, ?_⟩
      · intro ht
        rw [ht] at hb
        simp only [if_true] at hb
        have hb0 : b = 0 := (Option.some.inj hb).symm
        subst hb0
        exact ⟨rfl, rfl⟩
      · intro b' hf hpb
        rw [hf] at hb
        simp only [Bool.false_eq_true, if_false] at hb
        rw [hpb] at hb
        have hb0 : b' = b := Option.some.inj hb
        subst hb0
        exact ⟨rfl, rfl⟩
  · intro hok r hr hid huid
    rcases edit_service_cases db db_ok uid sid f with
      ⟨hne, _⟩ | ⟨_, s, d, e, x, b, hs, hd, he, hx, hb, heq⟩
    · exact absurd hok hne
    · rw [heq] at hr
      simp only at hr
      rcases List.mem_map.mp hr with ⟨r0, hr0, hmap⟩
      by_cases hc : (r0.id == sid && r0.user_id == uid) = true
      · rw [if_pos hc] at hmap
        subst hmap
        constructor
        · intro ht
          rw [ht] at hb
          simp only [if_true] at hb
          have hb0 : b = 0 := (Option.some.inj hb).symm
          subst hb0
          exact ⟨rfl, rfl⟩
        · intro b' hf hpb
          rw [hf] at hb
          simp only [Bool.false_eq_true, if_false] at hb
          rw [hpb] at hb
          have hb0 : b' = b := Option.some.inj hb
          subst hb0
          exact ⟨rfl, rfl⟩
      · rw [if_neg hc] at hmap
        subst hmap
        exact absurd (by simp [hid, huid]) hc

theorem c4_no_discount_break_zero_witness :
    ∃ r, (add_service ⟨[], 1⟩ true 3
        ⟨"a", "2024-05-03", "09:00", "45", "17:00", " note ", true⟩).2.rows =
      (⟨[], 1⟩ : DB).rows ++ [r] ∧
      ((⟨"a", "2024-05-03", "09:00", "45", "17:00", " note ", true⟩ :
          ServiceForm).no_discount_break = true → r.break_duration = 0 ∧
        r.worked_hours = calculate_worked_hours "09:00" "17:00" 0) ∧
      (∀ b, (⟨"a", "2024-05-03", "09:00", "45", "17:00", " note ", true⟩ :
          ServiceForm).no_discount_break = false → parse_int "45" = some b →
        r.break_duration = b ∧
        r.worked_hours = calculate_worked_hours "09:00" "17:00" b) :=
  (c4_no_discount_break_zero ⟨[], 1⟩ true 3 0
    ⟨"a", "2024-05-03", "09:00", "45", "17:00", " note ", true⟩).1 (by decide)

/-- **C7.**  A request that fails — database error (modelled by
`db_ok = false`), malformed date/time, or a non-integer break duration —
leaves the committed set of services unchanged, for `add_service`,
`edit_service` and `delete_service`; malformed input is rejected before
anything is stored. -/
theorem c7_error_leaves_db_unchanged (db : DB) (db_ok : Bool) (uid sid : Nat)
    (f : ServiceForm) :
    ((add_service db db_ok uid f).1 ≠ Outcome.ok →
      (add_service db db_ok uid f).2 = db) ∧
    ((edit_service db db_ok uid sid f).1 ≠ Outcome.ok →
      (edit_service db db_ok uid sid f).2 = db) ∧
    ((delete_service db db_ok uid sid).1 ≠ Outcome.ok →
      (delete_service db db_ok uid sid).2 = db) ∧
    (db_ok = false → (add_service db db_ok uid f).1 ≠ Outcome.ok) ∧
    (parse_date f.date_str = none →
      (add_service db db_ok uid f).1 = Outcome.formatError) ∧
    (f.no_discount_break = false → parse_int f.break_duration_str = none →
      (add_service db db_ok uid f).1 ≠ Outcome.ok) := by
  refine ⟨?_, ?_, ?_, ?_, ?_, ?_⟩
  · intro h
    rcases add_service_cases db db_ok uid f with ⟨_, h2⟩ | ⟨_, d, e, x, b, _, _, _, _, heq⟩
    · exact h2
    · rw [heq] at h; exact absurd rfl h
  · intro h
    rcases edit_service_cases db db_ok uid sid f with
      ⟨_, h2⟩ | ⟨_, s, d, e, x, b, _, _, _, _, _, heq⟩
    · exact h2
    · rw [heq] at h; exact absurd rfl h
  · intro h
    rcases delete_service_cases db db_ok uid sid with ⟨_, h2⟩ | ⟨_, s, _, heq⟩
    · exact h2
    · rw [heq] at h; exact absurd rfl h
  · intro hfalse
    rcases add_service_cases db db_ok uid f with ⟨hne, _⟩ | ⟨htrue, _⟩
    · exact hne
    · rw [hfalse] at htrue; exact absurd htrue (by simp)
  · intro hnone
    simp [add_service, hnone]
  · intro hf hnone
    rcases add_service_cases db db_ok uid f with ⟨hne, _⟩ | ⟨_, d, e, x, b, _, _, _, hb, _⟩
    · exact hne
    · rw [hf] at hb
      simp only [Bool.false_eq_true, if_false] at hb
      rw [hnone] at hb
      exact absurd hb (by simp)

theorem c7_error_leaves_db_unchanged_witness :
    (add_service ⟨[], 1⟩ false 1 ⟨"a", "2024-05-03", "09:00", "30", "17:00", "", false⟩).2 =
      (⟨[], 1⟩ : DB) ∧
    (add_service ⟨[], 1⟩ true 1 ⟨"a", "bad", "09:00", "30", "17:00", "", false⟩).1 =
      Outcome.formatError :=
  ⟨(c7_error_leaves_db_unchanged ⟨[], 1⟩ false 1 1
      ⟨"a", "2024-05-03", "09:00", "30", "17:00", "", false⟩).1 (by decide),
   (c7_error_leaves_db_unchanged ⟨[], 1⟩ true 1 1
      ⟨"a", "bad", "09:00", "30", "17:00", "", false⟩).2.2.2.2.1 (by decide)⟩

/-- **C8.**  After a successful `add_service` or `edit_service`, the
stored row satisfies
`worked_hours = calculate_worked_hours(entry_time, exit_time,
break_duration)` over its own stored fields; `edit_service` recomputes
`worked_hours` from the updated fields. -/
theorem c8_stored_worked_hours_consistent (db : DB) (db_ok : Bool) (uid sid : Nat)
    (f : ServiceForm) :
    ((add_service db db_ok uid f).1 = Outcome.ok →
      ∃ r, (add_service db db_ok uid f).2.rows = db.rows ++ [r] ∧
        r.worked_hours = calculate_worked_hours (fmtTime r.entry_time)
          (fmtTime r.exit_time) r.break_duration) ∧
    ((edit_service db db_ok uid sid f).1 = Outcome.ok →
      ∀ r ∈ (edit_service db db_ok uid sid f).2.rows, r.id = sid → r.user_id = uid →
        r.worked_hours = calculate_worked_hours (fmtTime r.entry_time)
          (fmtTime r.exit_time) r.break_duration) := by
  constructor
  · intro hok
    rcases add_service_cases db db_ok uid f with ⟨hne, _⟩ | ⟨_, d, e, x, b, hd, he, hx, hb, heq⟩
    · exact absurd hok hne
    · exact ⟨⟨db.next_id, uid, f.place, d, e, b, x,
        calculate_worked_hours f.entry_time_str f.exit_time_str b, pyStrip f.observations⟩,
        by rw [heq], calc_eq_of_parse b he hx⟩
  · intro hok r hr hid huid
    rcases edit_service_cases db db_ok uid sid f with
      ⟨hne, _⟩ | ⟨_, s, d, e, x, b, hs, hd, he, hx, hb, heq⟩
    · exact absurd hok hne
    · rw [heq] at hr
      simp only at hr
      rcases List.mem_map.mp hr with ⟨r0, hr0, hmap⟩
      by_cases hc : (r0.id == sid && r0.user_id == uid) = true
      · rw [if_pos hc] at hmap
        subst hmap
        rfl
      · rw [if_neg hc] at hmap
        subst hmap
        exact absurd (by simp [hid, huid]) hc

theorem c8_stored_worked_hours_consistent_witness :
    ∃ r, (add_service ⟨[], 1⟩ true 2
        ⟨"b", "2024-06-01", "22:15", "20", "23:45", "", false⟩).2.rows =
      (⟨[], 1⟩ : DB).rows ++ [r] ∧
      r.worked_hours = calculate_worked_hours (fmtTime r.entry_time)
        (fmtTime r.exit_time) r.break_duration :=
  (c8_stored_worked_hours_consistent ⟨[], 1⟩ true 2 0
    ⟨"b", "2024-06-01", "22:15", "20", "23:45", "", false⟩).1 (by decide)

/-- **C9.**  `edit_service` and `delete_service` touch a service only if
its `user_id` equals the logged-in user's id: when every row with the
requested id belongs to a different user (or no row has that id), the
operation returns 404 with the database unchanged, and rows of other
users always survive both operations untouched. -/
theorem c9_ownership_guard (db : DB) (db_ok : Bool) (uid sid : Nat) (f : ServiceForm) :
    ((∀ r ∈ db.rows, r.id = sid → r.user_id ≠ uid) →
      edit_service db db_ok uid sid f = (Outcome.notFound, db) ∧
      delete_service db db_ok uid sid = (Outcome.notFound, db)) ∧
    (∀ r ∈ db.rows, r.user_id ≠ uid → r ∈ (edit_service db db_ok uid sid f).2.rows) ∧
    (∀ r ∈ db.rows, r.user_id ≠ uid → r ∈ (delete_service db db_ok uid sid).2.rows) := by
  refine ⟨?_, ?_, ?_⟩
  · intro h
    have hnone : db.rows.find? (fun r => r.id == sid && r.user_id == uid) = none := by
      rw [List.find?_eq_none]
      intro r hr
      simp only [Bool.and_eq_true, beq_iff_eq, not_and]
      intro hid
      exact h r hr hid
    constructor
    · simp [edit_service, hnone]
    · simp [delete_service, hnone]
  · intro r hr hu
    rcases edit_service_cases db db_ok uid sid f with
      ⟨_, h2⟩ | ⟨_, s, d, e, x, b, _, _, _, _, _, heq⟩
    · rw [h2]; exact hr
    · rw [heq]
      simp only
      refine List.mem_map.mpr ⟨r, hr, ?_⟩
      rw [if_neg]
      simp [hu]
  · intro r hr hu
    rcases delete_service_cases db db_ok uid sid with ⟨_, h2⟩ | ⟨_, s, _, heq⟩
    · rw [h2]; exact hr
    · rw [heq]
      simp only
      exact (List.mem_eraseP_of_neg (by simp [hu])).mpr hr

theorem c9_ownership_guard_witness :
    edit_service ⟨[⟨5, 2, "x", ⟨2024, 1, 2⟩, 540, 0, 600, 1, ""⟩], 6⟩ true 1 5
        ⟨"a", "2024-05-03", "09:00", "30", "17:00", "", false⟩ =
      (Outcome.notFound, ⟨[⟨5, 2, "x", ⟨2024, 1, 2⟩, 540, 0, 600, 1, ""⟩], 6⟩) ∧
    delete_service ⟨[⟨5, 2, "x", ⟨2024, 1, 2⟩, 540, 0, 600, 1, ""⟩], 6⟩ true 1 5 =
      (Outcome.notFound, ⟨[⟨5, 2, "x", ⟨2024, 1, 2⟩, 540, 0, 600, 1, ""⟩], 6⟩) :=
  (c9_ownership_guard ⟨[⟨5, 2, "x", ⟨2024, 1, 2⟩, 540, 0, 600, 1, ""⟩], 6⟩ true 1 5
    ⟨"a", "2024-05-03", "09:00", "30", "17:00", "", false⟩).1 (by decide)

theorem parse_month_bounds {s : String} {y m : Nat}
    (h : parse_month s = some (y, m)) : 1 ≤ y ∧ 1 ≤ m ∧ m ≤ 12 := by
  unfold parse_month at h
  rcases h1 : takeDigits4 s.data with _ | ⟨yy, rest⟩
  · rw [h1] at h; exact absurd h (by simp)
  · rw [h1] at h
    rcases rest with _ | ⟨c, rest2⟩
    · exact absurd h (by simp)
    · by_cases hc : c = '-'
      · subst hc
        simp only at h
        rcases h2 : takeDigits2 rest2 with _ | ⟨mm, rest3⟩
        · rw [h2] at h; exact absurd h (by simp)
        · rw [h2] at h
          rcases rest3 with _ | _
          · simp only at h
            by_cases hb : 1 ≤ yy && 1 ≤ mm && mm ≤ 12
            · rw [if_pos hb] at h
              simp only [Option.some.injEq, Prod.mk.injEq] at h
              simp only [Bool.and_eq_true, decide_eq_true_eq] at hb
              obtain ⟨h3, h4⟩ := h
              subst h3; subst h4
              exact ⟨hb.1.1, hb.1.2, hb.2⟩
            · rw [if_neg hb] at h; exact absurd h (by simp)
          · exact absurd h (by simp)
      · exact absurd h (by simp [hc])

theorem month_end_eq (y m : Nat) (h1 : 1 ≤ m) (h2 : m ≤ 12) :
    month_end y m = ⟨y, m, daysInMonth y m⟩ := by
  by_cases h12 : m = 12
  · subst h12
    simp [month_end, predDay, daysInMonth]
  · have hne : ¬(m + 1 = 1) := by omega
    have hd : ¬(1 < 1) := by omega
    simp only [month_end, h12, if_false, predDay, hd, hne, Nat.add_sub_cancel]

theorem mem_month_filter (rows : List Service) (uid y m : Nat) (s : Service) :
    (s ∈ rows.filter fun r => r.user_id == uid && dateLe (month_start y m) r.date &&
      dateLe r.date (month_end y m)) ↔
    s ∈ rows ∧ s.user_id = uid ∧ dateLe (month_start y m) s.date = true ∧
      dateLe s.date (month_end y m) = true := by
  rw [List.mem_filter]
  simp [Bool.and_eq_true, and_assoc]

/-- **C6.**  For a selected month `YYYY-MM`, the listing, PDF-report and
task-summary queries return exactly the stored services of the logged-in
user whose date lies between the first and the last day of that month
inclusive; the computed `end_date` (December via January 1 of the next
year minus one day) is indeed the last day of the month. -/
theorem c6_month_range_queries (rows : List Service) (uid : Nat) (mstr : String)
    (y m : Nat) (s : Service) (hp : parse_month mstr = some (y, m)) :
    (s ∈ index_services rows uid mstr "" ↔
      s ∈ rows ∧ s.user_id = uid ∧ dateLe (month_start y m) s.date = true ∧
        dateLe s.date (month_end y m) = true) ∧
    (s ∈ download_pdf_services rows uid mstr ↔
      s ∈ rows ∧ s.user_id = uid ∧ dateLe (month_start y m) s.date = true ∧
        dateLe s.date (month_end y m) = true) ∧
    (s ∈ tasks_summary_services rows uid mstr ↔
      s ∈ rows ∧ s.user_id = uid ∧ dateLe (month_start y m) s.date = true ∧
        dateLe s.date (month_end y m) = true) ∧
    month_start y m = ⟨y, m, 1⟩ ∧
    month_end y m = ⟨y, m, daysInMonth y m⟩ := by
  obtain ⟨hy, hm1, hm2⟩ := parse_month_bounds hp
  refine ⟨?_, ?_, ?_, rfl, month_end_eq y m hm1 hm2⟩
  · simp only [index_services, hp]
    rw [if_neg (by simp), List.mem_mergeSort]
    exact mem_month_filter rows uid y m s
  · simp only [download_pdf_services, hp]
    rw [List.mem_mergeSort]
    exact mem_month_filter rows uid y m s
  · simp only [tasks_summary_services, hp]
    exact mem_month_filter rows uid y m s

theorem c6_month_range_queries_witness :
    ((⟨1, 1, "w", ⟨2024, 3, 15⟩, 540, 0, 600, 1, ""⟩ : Service) ∈
      index_services [⟨1, 1, "w", ⟨2024, 3, 15⟩, 540, 0, 600, 1, ""⟩,
        ⟨2, 1, "w", ⟨2024, 4, 2⟩, 540, 0, 600, 1, ""⟩] 1 "2024-03" "" ↔
      (⟨1, 1, "w", ⟨2024, 3, 15⟩, 540, 0, 600, 1, ""⟩ : Service) ∈
        [⟨1, 1, "w", ⟨2024, 3, 15⟩, 540, 0, 600, 1, ""⟩,
          ⟨2, 1, "w", ⟨2024, 4, 2⟩, 540, 0, 600, 1, ""⟩] ∧
        (1 : Nat) = 1 ∧
        dateLe (month_start 2024 3) ⟨2024, 3, 15⟩ = true ∧
        dateLe (⟨2024, 3, 15⟩ : PyDate) (month_end 2024 3) = true) ∧
    ((⟨1, 1, "w", ⟨2024, 3, 15⟩, 540, 0, 600, 1, ""⟩ : Service) ∈
      download_pdf_services [⟨1, 1, "w", ⟨2024, 3, 15⟩, 540, 0, 600, 1, ""⟩,
        ⟨2, 1, "w", ⟨2024, 4, 2⟩, 540, 0, 600, 1, ""⟩] 1 "2024-03" ↔
      (⟨1, 1, "w", ⟨2024, 3, 15⟩, 540, 0, 600, 1, ""⟩ : Service) ∈
        [⟨1, 1, "w", ⟨2024, 3, 15⟩, 540, 0, 600, 1, ""⟩,
          ⟨2, 1, "w", ⟨2024, 4, 2⟩, 540, 0, 600, 1, ""⟩] ∧
        (1 : Nat) = 1 ∧
        dateLe (month_start 2024 3) ⟨2024, 3, 15⟩ = true ∧
        dateLe (⟨2024, 3, 15⟩ : PyDate) (month_end 2024 3) = true) ∧
    ((⟨1, 1, "w", ⟨2024, 3, 15⟩, 540, 0, 600, 1, ""⟩ : Service) ∈
      tasks_summary_services [⟨1, 1, "w", ⟨2024, 3, 15⟩, 540, 0, 600, 1, ""⟩,
        ⟨2, 1, "w", ⟨2024, 4, 2⟩, 540, 0, 600, 1, ""⟩] 1 "2024-03" ↔
      (⟨1, 1, "w", ⟨2024, 3, 15⟩, 540, 0, 600, 1, ""⟩ : Service) ∈
        [⟨1, 1, "w", ⟨2024, 3, 15⟩, 540, 0, 600, 1, ""⟩,
          ⟨2, 1, "w", ⟨2024, 4, 2⟩, 540, 0, 600, 1, ""⟩] ∧
        (1 : Nat) = 1 ∧
        dateLe (month_start 2024 3) ⟨2024, 3, 15⟩ = true ∧
        dateLe (⟨2024, 3, 15⟩ : PyDate) (month_end 2024 3) = true) ∧
    month_start 2024 3 = ⟨2024, 3, 1⟩ ∧
    month_end 2024 3 = ⟨2024, 3, daysInMonth 2024 3⟩ :=
  c6_month_range_queries
    [⟨1, 1, "w", ⟨2024, 3, 15⟩, 540, 0, 600, 1, ""⟩,
      ⟨2, 1, "w", ⟨2024, 4, 2⟩, 540, 0, 600, 1, ""⟩] 1 "2024-03" 2024 3
    ⟨1, 1, "w", ⟨2024, 3, 15⟩, 540, 0, 600, 1, ""⟩ (by decide)

/-- **C5 counterexample.**  No operation of the application returns CSV:
every export route of `app.py` serves mimetype `application/pdf`, so the
claimed CSV export does not exist. -/
theorem c5_counterexample :
    export_routes.map ExportRoute.mimetype =
      ["application/pdf", "application/pdf", "application/pdf"] ∧
    "text/csv" ∉ export_routes.map ExportRoute.mimetype := by
  decide

/-- **C5 (amended).**  The application exports the selected month as PDF
only (routes `/download_pdf`, `/preview_pdf`, `/generate_tasks_pdf`, all
`application/pdf`); there is no CSV export.  The `download_pdf` operation
does return exactly the logged-in user's rows of the selected month. -/
theorem c5_pdf_export_only (rows : List Service) (uid : Nat) (mstr : String)
    (y m : Nat) (s : Service) (hp : parse_month mstr = some (y, m)) :
    (∀ r ∈ export_routes, r.mimetype = "application/pdf") ∧
    (∀ r ∈ export_routes, r.mimetype ≠ "text/csv") ∧
    (s ∈ download_pdf_services rows uid mstr ↔
      s ∈ rows ∧ s.user_id = uid ∧ dateLe (month_start y m) s.date = true ∧
        dateLe s.date (month_end y m) = true) := by
  refine ⟨by decide, by decide, ?_⟩
  simp only [download_pdf_services, hp]
  rw [List.mem_mergeSort]
  exact mem_month_filter rows uid y m s

theorem c5_pdf_export_only_witness :
    (∀ r ∈ export_routes, r.mimetype = "application/pdf") ∧
    (∀ r ∈ export_routes, r.mimetype ≠ "text/csv") ∧
    ((⟨1, 4, "w", ⟨2023, 12, 31⟩, 540, 0, 600, 1, ""⟩ : Service) ∈
      download_pdf_services [⟨1, 4, "w", ⟨2023, 12, 31⟩, 540, 0, 600, 1, ""⟩] 4
        "2023-12" ↔
      (⟨1, 4, "w", ⟨2023, 12, 31⟩, 540, 0, 600, 1, ""⟩ : Service) ∈
        [⟨1, 4, "w", ⟨2023, 12, 31⟩, 540, 0, 600, 1, ""⟩] ∧
        (4 : Nat) = 4 ∧
        dateLe (month_start 2023 12) ⟨2023, 12, 31⟩ = true ∧
        dateLe (⟨2023, 12, 31⟩ : PyDate) (month_end 2023 12) = true) :=
  c5_pdf_export_only [⟨1, 4, "w", ⟨2023, 12, 31⟩, 540, 0, 600, 1, ""⟩] 4 "2023-12"
    2023 12 ⟨1, 4, "w", ⟨2023, 12, 31⟩, 540, 0, 600, 1, ""⟩ (by decide)
